import Mathlib

/-
  Verification of the QueueSync repository (coordinator.py, worker.py).

  The embedding models the two classes of the repository:

  * `Coordinator` (coordinator.py): an abstract server that accepts client
    connections, enqueues them into a FIFO `queue.Queue`, and drains the
    queue on a single dedicated thread (`process_requests`), invoking the
    abstract `handle_request` once per request and replying on the same
    connection.  `process_requests` wraps the recv/handle/send sequence in
    a `try`/`finally` block (no `except` clause): the `finally` closes the
    client socket and calls `task_done`, after which any exception raised
    in the `try` block propagates and terminates the processing thread.
    The accept loop in `start` has no exception handling at all.

  * `Worker` (worker.py): a client that connects, exchanges one bounded
    request/response per `query_coordinator` call (socket errors are
    converted to an empty-bytes return), and whose `start` closes the
    socket in a `finally` block on every exit path, catching
    `socket.error` from the connect/run sequence.

  Python byte strings are modelled as `List Nat`; the outcome of each
  blocking socket call (which may raise) is an explicit `Except` value
  supplied by an environment record, so a run of a loop is a function of
  the list of per-request environments.  Runs produce an explicit event
  trace (dequeue, recv, handler start/end, send, close, task_done, raise)
  plus the list of lines printed by `display_update`, so that ordering,
  cleanup, mutual-exclusion and verbosity-noninterference properties can
  be stated about the trace.
-/

namespace QueueSync

/-- A client address, as the `(host, port)` tuple returned by `accept`. -/
abbrev Addr := String × Nat

/-- Python `bytes` payloads, modelled as lists of byte values. -/
abbrev Bytes := List Nat

/-- The fixed receive buffer size: both `Coordinator.process_requests` and
`Worker.query_coordinator` call `recv(1024)`. -/
def BUFFER_SIZE : Nat := 1024

/-- A Python exception: either a `socket.error` or some other exception.
Only `socket.error` is caught by the `except socket.error` clauses in
worker.py. -/
inductive PyErr where
  | sockErr : String → PyErr
  | otherErr : String → PyErr
deriving Repr, DecidableEq

/-- An entry of the coordinator's request queue: the pair
`(client_socket, client_address)` put by `queue_client_request`.  The
socket object is identified by a numeric id. -/
structure ClientRequest where
  sockId : Nat
  address : Addr
deriving Repr, DecidableEq

/-- Rendering of an address for the `display_update` messages
(stand-in for Python string interpolation of the tuple). -/
def addrStr (a : Addr) : String := a.1 ++ ":" ++ toString a.2

/-- The outcomes of the three fallible operations performed while
processing one dequeued request in `Coordinator.process_requests`:
the data delivered by `client_socket.recv(1024)` (before truncation to
the buffer size) or the error it raises; the behaviour of the abstract
`handle_request` on the received payload; and the outcome of
`client_socket.send(response)`. -/
structure ReqEnv where
  recvRaw : Except PyErr Bytes
  handle : Bytes → Except PyErr Bytes
  sendRes : Except PyErr Unit

/-- Observable events of a coordinator processing run. -/
inductive Event where
  | dequeue : ClientRequest → Event
  | recvEv : Nat → Bytes → Event
  | handleStart : ClientRequest → Bytes → Event
  | handleEnd : ClientRequest → Bytes → Event
  | handleExn : ClientRequest → PyErr → Event
  | sendEv : Nat → Bytes → Event
  | closeEv : Nat → Event
  | taskDone : ClientRequest → Event
  | raiseEv : PyErr → Event
deriving Repr, DecidableEq

namespace Coordinator

/-- `Coordinator.display_update`: prints the message iff
`are_updates_displayed` is set.  The printed output is modelled as the
list of printed lines. -/
def display_update (are_updates_displayed : Bool) (message : String) : List String :=
  if are_updates_displayed then [message] else []

/-- `Coordinator.queue_client_request`: `self.request_queue.put(...)`
followed by a `display_update`.  The FIFO queue is modelled as a list
whose head is the oldest entry, so `put` appends at the end. -/
def queue_client_request (flag : Bool) (q : List ClientRequest) (req : ClientRequest) :
    List ClientRequest × List String :=
  (q ++ [req],
   display_update flag ("Request from " ++ addrStr req.address ++ " added to the request queue."))

/-- Enqueue a list of arriving requests in order by successive calls to
`queue_client_request`, starting from queue `q`. -/
def enqueue_all (flag : Bool) (q : List ClientRequest) :
    List ClientRequest → List ClientRequest × List String
  | [] => (q, [])
  | r :: rs =>
    let (q1, out1) := queue_client_request flag q r
    let (q2, out2) := enqueue_all flag q1 rs
    (q2, out1 ++ out2)

/-- The `try` block of `Coordinator.process_requests` for one dequeued
request: `received_data = client_socket.recv(1024)` (the delivered data is
truncated to the buffer size), then
`response = self.handle_request(client_socket, client_address, received_data)`,
then `client_socket.send(response)`.  Returns the events of the block and
the exception it raises, if any (there is no `except` clause). -/
def tryBlock (req : ClientRequest) (env : ReqEnv) : List Event × Option PyErr :=
  match env.recvRaw with
  | Except.error e => ([], some e)
  | Except.ok raw =>
    let received := raw.take BUFFER_SIZE
    match env.handle received with
    | Except.error e =>
      ([Event.recvEv req.sockId received, Event.handleStart req received,
        Event.handleExn req e], some e)
    | Except.ok response =>
      match env.sendRes with
      | Except.error e =>
        ([Event.recvEv req.sockId received, Event.handleStart req received,
          Event.handleEnd req response], some e)
      | Except.ok _ =>
        ([Event.recvEv req.sockId received, Event.handleStart req received,
          Event.handleEnd req response, Event.sendEv req.sockId response], none)

/-- One iteration of the `while True` loop of
`Coordinator.process_requests`: dequeue `(client_socket, client_address)`,
display, run the `try` block, and unconditionally run the `finally` block
(`client_socket.close()`, display, `self.request_queue.task_done()`).
Returns the events, the exception re-raised after `finally` (if the `try`
block raised), and the printed lines. -/
def process_one (flag : Bool) (req : ClientRequest) (env : ReqEnv) :
    List Event × Option PyErr × List String :=
  let out1 := display_update flag ("Processing request from " ++ addrStr req.address ++ ".")
  let t := tryBlock req env
  let out2 := display_update flag ("Closed connection with " ++ addrStr req.address ++ ".")
  (Event.dequeue req :: t.1 ++ [Event.closeEv req.sockId, Event.taskDone req],
   t.2, out1 ++ out2)

/-- `Coordinator.process_requests` run over the queue contents (oldest
first), each entry paired with the outcomes of its socket/handler
operations.  An exception raised while processing a request propagates
out of the loop (the thread dies), so the remaining entries are never
dequeued; otherwise the loop continues with the next entry. -/
def process_requests (flag : Bool) : List (ClientRequest × ReqEnv) → List Event × List String
  | [] => ([], [])
  | (req, env) :: rest =>
    let p := process_one flag req env
    match p.2.1 with
    | some e => (p.1 ++ [Event.raiseEv e], p.2.2)
    | none =>
      let r := process_requests flag rest
      (p.1 ++ r.1, p.2.2 ++ r.2)

/-- Observable events of the accept loop in `Coordinator.start`. -/
inductive AEvent where
  | accepted : Addr → AEvent
  | spawnedEnqueue : ClientRequest → AEvent
  | raiseEv : PyErr → AEvent
deriving Repr, DecidableEq

/-- The `while True` accept loop of `Coordinator.start`, run over the
sequence of outcomes of `server_socket.accept()`.  Each successful accept
displays an update and spawns a thread running `queue_client_request`;
the loop body has no exception handling, so an error raised by `accept`
propagates out of `start` and the loop terminates. -/
def start (flag : Bool) : List (Except PyErr ClientRequest) → List AEvent × List String
  | [] => ([], [])
  | Except.error e :: _ => ([AEvent.raiseEv e], [])
  | Except.ok req :: rest =>
    let out := display_update flag ("Accepted connection from " ++ addrStr req.address ++ ".")
    let r := start flag rest
    (AEvent.accepted req.address :: AEvent.spawnedEnqueue req :: r.1, out ++ r.2)

end Coordinator

/-- The addresses and payloads of the `handle_request` invocations in a
trace, in trace order. -/
def handlerStarts : List Event → List (ClientRequest × Bytes)
  | [] => []
  | Event.handleStart req d :: rest => (req, d) :: handlerStarts rest
  | _ :: rest => handlerStarts rest

/-- Number of occurrences of an event in a trace. -/
def countEv (ev : Event) (tr : List Event) : Nat :=
  (tr.filter (fun x => x = ev)).length

/-- The payload of the first `send` event of a trace (the response the
coordinator writes back to the client), or empty if none. -/
def sentData : List Event → Bytes
  | [] => []
  | Event.sendEv _ d :: _ => d
  | _ :: rest => sentData rest

/-- Scan a trace tracking whether a `handle_request` invocation is
currently active (`b`): a `handleStart` while one is active is a
violation of mutual exclusion (`none`); an invocation ends by returning
(`handleEnd`) or raising (`handleExn`).  Returns the final activity state
if no violation occurs. -/
def mutexAux : Bool → List Event → Option Bool
  | false, Event.handleStart _ _ :: rest => mutexAux true rest
  | true, Event.handleStart _ _ :: _ => none
  | _, Event.handleEnd _ _ :: rest => mutexAux false rest
  | _, Event.handleExn _ _ :: rest => mutexAux false rest
  | b, _ :: rest => mutexAux b rest
  | b, [] => some b

namespace Worker

/-- `Worker.display_update`: prints the message iff
`are_updates_displayed` is set. -/
def display_update (are_updates_displayed : Bool) (message : String) : List String :=
  if are_updates_displayed then [message] else []

/-- The outcomes of the socket operations of one
`Worker.query_coordinator` call: `self.client_socket.send(data)` and the
data delivered by `self.client_socket.recv(1024)` (before truncation). -/
structure WorkerEnv where
  sendRes : Except PyErr Unit
  recvRaw : Except PyErr Bytes

/-- `Worker.query_coordinator`: sends `data`, receives up to 1024 bytes
and returns them; `except socket.error` converts a socket error from
either operation into a normal return of empty bytes, while any other
exception propagates (`Except.error`).  Also returns the printed lines. -/
def query_coordinator (flag : Bool) (env : WorkerEnv) (data : Bytes) :
    Except PyErr Bytes × List String :=
  let o1 := display_update flag "Querying the coordinator..."
  match env.sendRes with
  | Except.error (PyErr.sockErr m) =>
    (Except.ok [], o1 ++ display_update flag ("Error during communication: " ++ m))
  | Except.error e => (Except.error e, o1)
  | Except.ok _ =>
    let o2 := display_update flag "Waiting for response..."
    match env.recvRaw with
    | Except.error (PyErr.sockErr m) =>
      (Except.ok [],
       o1 ++ o2 ++ display_update flag ("Error during communication: " ++ m))
    | Except.error e => (Except.error e, o1 ++ o2)
    | Except.ok raw =>
      (Except.ok (raw.take BUFFER_SIZE),
       o1 ++ o2 ++ display_update flag "Response received...")

/-- The outcomes of the fallible steps of `Worker.start`:
`self.client_socket.connect((self.host, self.port))` and the abstract
`self.run_worker()`. -/
structure StartEnv where
  connectRes : Except PyErr Unit
  runWorkerRes : Except PyErr Unit

/-- The socket-related state of a `Worker`: the `client_socket` field
(`none` models Python `None`), the ids of the currently open sockets, and
a counter supplying the id of the next socket object created. -/
structure WState where
  client_socket : Option Nat
  openSockets : List Nat
  nextId : Nat
deriving Repr, DecidableEq

/-- `Worker.start`: `self.client_socket = socket.socket()` (a fresh open
socket), then `connect` and `run_worker` inside `try`; `except
socket.error` swallows a socket error from either; the `finally` block
closes `self.client_socket` (if set) and resets it to `None` on every
exit path.  Returns the exception propagating out of `start` (if any),
the final state, and the printed lines. -/
def start (flag : Bool) (host : String) (port : Nat) (env : StartEnv) (s0 : WState) :
    Option PyErr × WState × List String :=
  let sid := s0.nextId
  let s1 : WState :=
    { client_socket := some sid, openSockets := sid :: s0.openSockets, nextId := s0.nextId + 1 }
  let tryRes : Option PyErr × List String :=
    match env.connectRes with
    | Except.error e => (some e, [])
    | Except.ok _ =>
      let oConn := display_update flag ("Connected to server at " ++ addrStr (host, port))
      match env.runWorkerRes with
      | Except.error e => (some e, oConn)
      | Except.ok _ => (none, oConn)
  let afterExcept : Option PyErr × List String :=
    match tryRes.1 with
    | some (PyErr.sockErr m) => (none, display_update flag ("Connection error: " ++ m))
    | o => (o, [])
  match s1.client_socket with
  | some cs =>
    let s2 : WState := { s1 with openSockets := s1.openSockets.erase cs, client_socket := none }
    (afterExcept.1, s2, tryRes.2 ++ afterExcept.2 ++ display_update flag "Connection closed.")
  | none => (afterExcept.1, s1, tryRes.2 ++ afterExcept.2)

end Worker

/-- Composition of one coordinator request cycle with one worker query,
with the coordinator running the echo handler: the worker's payload is
what the coordinator's `recv` sees, the data the coordinator `send`s back
is what the worker's `recv` sees.  Returns the worker's view of the
response. -/
def round_trip (flag : Bool) (payload : Bytes) : Except PyErr Bytes :=
  let req : ClientRequest := { sockId := 0, address := ("worker", 0) }
  let coordEnv : ReqEnv :=
    { recvRaw := Except.ok payload, handle := fun d => Except.ok d, sendRes := Except.ok () }
  let trace := (Coordinator.process_one flag req coordEnv).1
  (Worker.query_coordinator flag
    { sendRes := Except.ok (), recvRaw := Except.ok (sentData trace) } payload).1

/-- The payload `handle_request` is given for a request whose recv
succeeds: the delivered data truncated to the buffer size. -/
def recvOf (env : ReqEnv) : Bytes :=
  match env.recvRaw with
  | Except.ok raw => raw.take BUFFER_SIZE
  | Except.error _ => []

/-! ### Sample concrete values used by witnesses and counterexamples -/

/-- Sample request on socket 1 from address a:1. -/
def reqA : ClientRequest := ⟨1, ("a", 1)⟩

/-- Sample request on socket 2 from address b:2. -/
def reqB : ClientRequest := ⟨2, ("b", 2)⟩

/-- Environment in which recv, handler (echo) and send all succeed. -/
def envEcho : ReqEnv :=
  ⟨Except.ok [7, 8, 9], fun d => Except.ok d, Except.ok ()⟩

/-- Environment in which `client_socket.recv(1024)` raises a socket error. -/
def envRecvFail : ReqEnv :=
  ⟨Except.error (PyErr.sockErr "recv failed"), fun d => Except.ok d, Except.ok ()⟩

/-- Environment in which `handle_request` raises. -/
def envHandleFail : ReqEnv :=
  ⟨Except.ok [5], fun _ => Except.error (PyErr.otherErr "handler failed"), Except.ok ()⟩

/-! ### Helper lemmas -/

/-- Unfolding lemma for `process_requests` on a cons cell. -/
theorem process_requests_cons (flag : Bool) (req : ClientRequest) (env : ReqEnv)
    (rest : List (ClientRequest × ReqEnv)) :
    Coordinator.process_requests flag ((req, env) :: rest) =
      match (Coordinator.process_one flag req env).2.1 with
      | some e =>
          ((Coordinator.process_one flag req env).1 ++ [Event.raiseEv e],
           (Coordinator.process_one flag req env).2.2)
      | none =>
          ((Coordinator.process_one flag req env).1 ++
             (Coordinator.process_requests flag rest).1,
           (Coordinator.process_one flag req env).2.2 ++
             (Coordinator.process_requests flag rest).2) := rfl

/-- The events and the propagated exception of `process_one` do not
depend on the verbosity flag. -/
theorem process_one_flag_indep (f1 f2 : Bool) (req : ClientRequest) (env : ReqEnv) :
    (Coordinator.process_one f1 req env).1 = (Coordinator.process_one f2 req env).1 ∧
    (Coordinator.process_one f1 req env).2.1 = (Coordinator.process_one f2 req env).2.1 :=
  ⟨rfl, rfl⟩

/-- `handlerStarts` distributes over append. -/
theorem handlerStarts_append (xs ys : List Event) :
    handlerStarts (xs ++ ys) = handlerStarts xs ++ handlerStarts ys := by
  induction xs with
  | nil => rfl
  | cons x xs ih => cases x <;> simp [handlerStarts, ih]

/-- If the `try` block raises no exception, every step succeeded and the
events are the four-step success trace. -/
theorem tryBlock_none (req : ClientRequest) (env : ReqEnv)
    (h : (Coordinator.tryBlock req env).2 = none) :
    ∃ raw response,
      env.recvRaw = Except.ok raw ∧
      env.handle (raw.take BUFFER_SIZE) = Except.ok response ∧
      (Coordinator.tryBlock req env).1 =
        [Event.recvEv req.sockId (raw.take BUFFER_SIZE),
         Event.handleStart req (raw.take BUFFER_SIZE),
         Event.handleEnd req response,
         Event.sendEv req.sockId response] := by
  rcases env with ⟨recvRaw, handle, sendRes⟩
  rcases recvRaw with e | raw
  · simp [Coordinator.tryBlock] at h
  · rcases hh : handle (raw.take BUFFER_SIZE) with e | response
    · simp [Coordinator.tryBlock, hh] at h
    · rcases sendRes with e | u
      · simp [Coordinator.tryBlock, hh] at h
      · exact ⟨raw, response, rfl, hh, by simp [Coordinator.tryBlock, hh]⟩

/-- `enqueue_all` appends the arrivals to the queue in arrival order. -/
theorem enqueue_all_queue (flag : Bool) (rs : List ClientRequest) (q : List ClientRequest) :
    (Coordinator.enqueue_all flag q rs).1 = q ++ rs := by
  induction rs generalizing q with
  | nil => simp [Coordinator.enqueue_all]
  | cons r rs ih =>
    simp [Coordinator.enqueue_all, Coordinator.queue_client_request, ih]

/-- `mutexAux` sequences over append. -/
theorem mutexAux_append (xs ys : List Event) (b : Bool) :
    mutexAux b (xs ++ ys) = (mutexAux b xs).bind (fun b2 => mutexAux b2 ys) := by
  induction xs generalizing b with
  | nil => simp [mutexAux]
  | cons x xs ih => cases x <;> cases b <;> simp [mutexAux, ih]

/-- The events of a `try` block are handler-balanced: the block starts
and ends with no handler invocation active, with no overlap inside. -/
theorem mutexAux_tryBlock (req : ClientRequest) (env : ReqEnv) :
    mutexAux false (Coordinator.tryBlock req env).1 = some false := by
  rcases env with ⟨recvRaw, handle, sendRes⟩
  rcases recvRaw with e | raw
  · simp [Coordinator.tryBlock, mutexAux]
  · rcases hh : handle (raw.take BUFFER_SIZE) with e | response
    · simp [Coordinator.tryBlock, hh, mutexAux]
    · rcases sendRes with e | u <;> simp [Coordinator.tryBlock, hh, mutexAux]

/-- Each single-request trace of the processor is handler-balanced: it
starts and ends with no handler invocation active, with no overlap. -/
theorem mutexAux_process_one (flag : Bool) (req : ClientRequest) (env : ReqEnv) :
    mutexAux false (Coordinator.process_one flag req env).1 = some false := by
  simp [Coordinator.process_one, mutexAux, mutexAux_append, mutexAux_tryBlock]

/-! ### Claim theorems -/

/-- Claim C1, counterexample: the processing loop has a `try`/`finally`
with no `except` clause, so when `recv` raises on the first queued
request the exception propagates after cleanup and the loop terminates:
the second queued request is never dequeued, contradicting the claim that
the loop goes on to process subsequent queue entries. -/
theorem C1_cex :
    (Coordinator.tryBlock reqA envRecvFail).2 = some (PyErr.sockErr "recv failed") ∧
    Event.dequeue reqB ∉
      (Coordinator.process_requests true [(reqA, envRecvFail), (reqB, envEcho)]).1 := by
  decide

/-- Claim C1 as amended: when an I/O or handler error occurs while
processing a dequeued request, the connection is still closed and the
entry marked done (the `finally` block runs), but the exception then
propagates and terminates the processing loop, so subsequent queue
entries are not processed. -/
theorem C1_thm (flag : Bool) (req : ClientRequest) (env : ReqEnv)
    (rest : List (ClientRequest × ReqEnv)) (e : PyErr)
    (h : (Coordinator.tryBlock req env).2 = some e) :
    (Coordinator.process_requests flag ((req, env) :: rest)).1 =
      (Coordinator.process_one flag req env).1 ++ [Event.raiseEv e] ∧
    Event.closeEv req.sockId ∈ (Coordinator.process_requests flag ((req, env) :: rest)).1 ∧
    Event.taskDone req ∈ (Coordinator.process_requests flag ((req, env) :: rest)).1 := by
  have h2 : (Coordinator.process_one flag req env).2.1 = some e := h
  rw [process_requests_cons, h2]
  refine ⟨rfl, ?_, ?_⟩ <;> simp [Coordinator.process_one]

/-- Claim C1 witness: the amended theorem at a concrete erroring
request. -/
theorem C1_wit :
    (Coordinator.process_requests true [(reqA, envRecvFail)]).1 =
      (Coordinator.process_one true reqA envRecvFail).1 ++
        [Event.raiseEv (PyErr.sockErr "recv failed")] ∧
    Event.closeEv reqA.sockId ∈ (Coordinator.process_requests true [(reqA, envRecvFail)]).1 ∧
    Event.taskDone reqA ∈ (Coordinator.process_requests true [(reqA, envRecvFail)]).1 :=
  C1_thm true reqA envRecvFail [] (PyErr.sockErr "recv failed") rfl

/-- Claim C2: for every dequeued request, whatever the outcomes of the
read, the handler invocation and the response write (success or raise),
the `finally` block closes the client connection exactly once and marks
the queue entry done exactly once. -/
theorem C2_thm (flag : Bool) (req : ClientRequest) (env : ReqEnv) :
    countEv (Event.closeEv req.sockId) (Coordinator.process_one flag req env).1 = 1 ∧
    countEv (Event.taskDone req) (Coordinator.process_one flag req env).1 = 1 := by
  rcases env with ⟨recvRaw, handle, sendRes⟩
  rcases recvRaw with e | raw
  · simp [Coordinator.process_one, Coordinator.tryBlock, countEv]
  · rcases hh : handle (raw.take BUFFER_SIZE) with e | response
    · simp [Coordinator.process_one, Coordinator.tryBlock, hh, countEv]
    · rcases sendRes with e | u <;>
        simp [Coordinator.process_one, Coordinator.tryBlock, hh, countEv]

/-- Claim C3, counterexample: the accept loop of `Coordinator.start` has
no exception handling, so an error raised by `accept` terminates the
loop: a connection available right after the failing accept is never
accepted, contradicting the claim that the loop continues. -/
theorem C3_cex :
    Coordinator.AEvent.accepted ("b", 2) ∉
      (Coordinator.start true
        [Except.error (PyErr.sockErr "accept failed"), Except.ok reqB]).1 := by
  decide

/-- Claim C3 as amended: an error on accepting a connection is not
contained: it propagates out of `start`, terminating the accept loop, and
no further connection is accepted. -/
theorem C3_thm (flag : Bool) (e : PyErr) (rest : List (Except PyErr ClientRequest)) :
    Coordinator.start flag (Except.error e :: rest) =
      ([Coordinator.AEvent.raiseEv e], []) := rfl

/-- Claim C5: processing a dequeued request whose read, handler and write
all succeed performs, in order: dequeue, a single bounded recv truncated
to `BUFFER_SIZE` bytes, exactly one handler invocation on the received
payload, the verbatim write of the handler's response, and only then the
teardown (close, task_done); no exception propagates. -/
theorem C5_thm (flag : Bool) (req : ClientRequest) (env : ReqEnv)
    (raw response : Bytes)
    (h1 : env.recvRaw = Except.ok raw)
    (h2 : env.handle (raw.take BUFFER_SIZE) = Except.ok response)
    (h3 : env.sendRes = Except.ok ()) :
    (Coordinator.process_one flag req env).1 =
      [Event.dequeue req,
       Event.recvEv req.sockId (raw.take BUFFER_SIZE),
       Event.handleStart req (raw.take BUFFER_SIZE),
       Event.handleEnd req response,
       Event.sendEv req.sockId response,
       Event.closeEv req.sockId,
       Event.taskDone req] ∧
    (raw.take BUFFER_SIZE).length ≤ BUFFER_SIZE ∧
    (Coordinator.process_one flag req env).2.1 = none := by
  refine ⟨?_, List.length_take_le _ _, ?_⟩ <;>
    simp [Coordinator.process_one, Coordinator.tryBlock, h1, h2, h3]

/-- Claim C5 witness: the processing steps at a concrete successful
request. -/
theorem C5_wit :
    (Coordinator.process_one true reqA envEcho).1 =
      [Event.dequeue reqA,
       Event.recvEv reqA.sockId ([7, 8, 9].take BUFFER_SIZE),
       Event.handleStart reqA ([7, 8, 9].take BUFFER_SIZE),
       Event.handleEnd reqA [7, 8, 9],
       Event.sendEv reqA.sockId [7, 8, 9],
       Event.closeEv reqA.sockId,
       Event.taskDone reqA] ∧
    (([7, 8, 9] : Bytes).take BUFFER_SIZE).length ≤ BUFFER_SIZE ∧
    (Coordinator.process_one true reqA envEcho).2.1 = none :=
  C5_thm true reqA envEcho [7, 8, 9] [7, 8, 9] rfl rfl rfl

/-- Claim C4, counterexample: two requests are enqueued but the handler
raises on the first, which kills the processing loop, so the handler is
invoked once, not twice — the claim that the Handler is invoked exactly N
times fails. -/
theorem C4_cex :
    ([(reqA, envHandleFail), (reqB, envEcho)] :
        List (ClientRequest × ReqEnv)).length = 2 ∧
    (handlerStarts
      (Coordinator.process_requests true [(reqA, envHandleFail), (reqB, envEcho)]).1).length
      = 1 := by
  decide

/-- Claim C4 as amended: provided every queued request's read, handler
invocation and response write complete without raising, the Handler is
invoked exactly N times for N queued requests, once per request with that
request's received payload, and the order of invocations equals the order
of insertion into the queue (which `queue_client_request` builds strictly
FIFO from the arrival order). -/
theorem C4_thm (flag : Bool) (l : List (ClientRequest × ReqEnv))
    (h : ∀ p ∈ l, (Coordinator.tryBlock p.1 p.2).2 = none) :
    handlerStarts (Coordinator.process_requests flag l).1 =
      l.map (fun p => (p.1, recvOf p.2)) ∧
    (handlerStarts (Coordinator.process_requests flag l).1).length = l.length ∧
    (Coordinator.enqueue_all flag [] (l.map Prod.fst)).1 = l.map Prod.fst := by
  have main : handlerStarts (Coordinator.process_requests flag l).1 =
      l.map (fun p => (p.1, recvOf p.2)) := by
    induction l with
    | nil => rfl
    | cons p rest ih =>
      rcases p with ⟨req, env⟩
      have hp : (Coordinator.tryBlock req env).2 = none := h _ (List.mem_cons_self _ _)
      have h2 : (Coordinator.process_one flag req env).2.1 = none := hp
      rcases tryBlock_none req env hp with ⟨raw, response, hraw, hh, hevs⟩
      rw [process_requests_cons, h2]
      have hone : handlerStarts (Coordinator.process_one flag req env).1 =
          [(req, recvOf env)] := by
        simp [Coordinator.process_one, hevs, handlerStarts, handlerStarts_append,
          recvOf, hraw]
      simp only [handlerStarts_append, hone,
        ih (fun q hq => h q (List.mem_cons_of_mem _ hq))]
      simp
  exact ⟨main, by rw [main]; simp, enqueue_all_queue flag _ []⟩

/-- Claim C4 witness: the amended theorem at a concrete two-request
queue whose steps all succeed. -/
theorem C4_wit :
    handlerStarts (Coordinator.process_requests true [(reqA, envEcho), (reqB, envEcho)]).1 =
      ([(reqA, envEcho), (reqB, envEcho)] :
        List (ClientRequest × ReqEnv)).map (fun p => (p.1, recvOf p.2)) ∧
    (handlerStarts
      (Coordinator.process_requests true [(reqA, envEcho), (reqB, envEcho)]).1).length =
      ([(reqA, envEcho), (reqB, envEcho)] : List (ClientRequest × ReqEnv)).length ∧
    (Coordinator.enqueue_all true []
      (([(reqA, envEcho), (reqB, envEcho)] :
        List (ClientRequest × ReqEnv)).map Prod.fst)).1 =
      ([(reqA, envEcho), (reqB, envEcho)] : List (ClientRequest × ReqEnv)).map Prod.fst :=
  C4_thm true [(reqA, envEcho), (reqB, envEcho)] (by decide)

/-- Claim C6: handler invocations are mutually exclusive: scanning any
trace of the single-consumer processing loop, a handler invocation is
never started while another is active (each started invocation returns or
raises before the next starts), and the trace ends with none active. -/
theorem C6_thm (flag : Bool) (l : List (ClientRequest × ReqEnv)) :
    mutexAux false (Coordinator.process_requests flag l).1 = some false := by
  induction l with
  | nil => rfl
  | cons p rest ih =>
    rcases p with ⟨req, env⟩
    rw [process_requests_cons]
    cases h2 : (Coordinator.process_one flag req env).2.1 with
    | some e =>
      simp [Coordinator.process_one, mutexAux_append, mutexAux_tryBlock, mutexAux]
    | none =>
      simp [Coordinator.process_one, mutexAux_append, mutexAux_tryBlock, mutexAux, ih]

/-- Claim C7: a socket error raised while sending the query or while
receiving the response is caught by `query_coordinator`, which returns
normally with the empty byte string instead of propagating the error. -/
theorem C7_thm (flag : Bool) (env : Worker.WorkerEnv) (data : Bytes) (m : String)
    (h : env.sendRes = Except.error (PyErr.sockErr m) ∨
         (env.sendRes = Except.ok () ∧ env.recvRaw = Except.error (PyErr.sockErr m))) :
    (Worker.query_coordinator flag env data).1 = Except.ok [] := by
  rcases h with h | ⟨h1, h2⟩
  · simp [Worker.query_coordinator, h]
  · simp [Worker.query_coordinator, h1, h2]

/-- Claim C7 witness: a concrete recv-side socket error yields the empty
sentinel. -/
theorem C7_wit :
    (Worker.query_coordinator true
      ⟨Except.ok (), Except.error (PyErr.sockErr "conn reset")⟩ [1, 2]).1 =
      Except.ok [] :=
  C7_thm true ⟨Except.ok (), Except.error (PyErr.sockErr "conn reset")⟩ [1, 2]
    "conn reset" (Or.inr ⟨rfl, rfl⟩)

/-- Claim C8: on every exit path of `Worker.start` the `finally` block
closes the socket created at entry and resets `client_socket` to `None`
(the set of open sockets is exactly what it was before the call); and
when `connect` raises a socket error (coordinator unreachable), `start`
returns normally: no exception propagates. -/
theorem C8_thm (flag : Bool) (host : String) (port : Nat)
    (env : Worker.StartEnv) (s0 : Worker.WState) :
    ((Worker.start flag host port env s0).2.1.client_socket = none ∧
     (Worker.start flag host port env s0).2.1.openSockets = s0.openSockets) ∧
    (∀ m, env.connectRes = Except.error (PyErr.sockErr m) →
      (Worker.start flag host port env s0).1 = none) := by
  refine ⟨⟨?_, ?_⟩, ?_⟩
  · simp [Worker.start]
  · simp [Worker.start]
  · intro m hm
    simp [Worker.start, hm]

/-- Claim C8 witness: a concrete run with an unreachable coordinator:
start raises nothing, the socket field is cleared and no socket stays
open. -/
theorem C8_wit :
    ((Worker.start true "h" 1 ⟨Except.error (PyErr.sockErr "unreachable"), Except.ok ()⟩
        ⟨none, [], 0⟩).2.1.client_socket = none ∧
     (Worker.start true "h" 1 ⟨Except.error (PyErr.sockErr "unreachable"), Except.ok ()⟩
        ⟨none, [], 0⟩).2.1.openSockets =
       (⟨none, [], 0⟩ : Worker.WState).openSockets) ∧
    (Worker.start true "h" 1 ⟨Except.error (PyErr.sockErr "unreachable"), Except.ok ()⟩
        ⟨none, [], 0⟩).1 = none :=
  ⟨(C8_thm true "h" 1 ⟨Except.error (PyErr.sockErr "unreachable"), Except.ok ()⟩
      ⟨none, [], 0⟩).1,
   (C8_thm true "h" 1 ⟨Except.error (PyErr.sockErr "unreachable"), Except.ok ()⟩
      ⟨none, [], 0⟩).2 "unreachable" rfl⟩

/-- Claim C9: with the echo handler on the coordinator side, a worker
query whose payload fits in the 1024-byte buffer receives exactly its own
payload back. -/
theorem C9_thm (flag : Bool) (payload : Bytes) (h : payload.length ≤ BUFFER_SIZE) :
    round_trip flag payload = Except.ok payload := by
  have ht : payload.take BUFFER_SIZE = payload := List.take_of_length_le h
  simp [round_trip, Coordinator.process_one, Coordinator.tryBlock, sentData,
    Worker.query_coordinator, ht]

/-- Claim C9 witness: the round trip at a concrete 3-byte payload. -/
theorem C9_wit :
    ([1, 2, 3] : Bytes).length ≤ BUFFER_SIZE ∧
    round_trip true [1, 2, 3] = Except.ok [1, 2, 3] :=
  ⟨by decide, C9_thm true [1, 2, 3] (by decide)⟩

/-- Claim C10: the verbosity flag is observationally inert: every
coordinator and worker operation produces the same events, return values
and post-state whatever the flag, the flag affecting only the printed
output. -/
theorem C10_thm (f1 f2 : Bool) :
    (∀ l, (Coordinator.process_requests f1 l).1 = (Coordinator.process_requests f2 l).1) ∧
    (∀ q r, (Coordinator.queue_client_request f1 q r).1 =
      (Coordinator.queue_client_request f2 q r).1) ∧
    (∀ conns, (Coordinator.start f1 conns).1 = (Coordinator.start f2 conns).1) ∧
    (∀ env d, (Worker.query_coordinator f1 env d).1 =
      (Worker.query_coordinator f2 env d).1) ∧
    (∀ host port env s,
      (Worker.start f1 host port env s).1 = (Worker.start f2 host port env s).1 ∧
      (Worker.start f1 host port env s).2.1 = (Worker.start f2 host port env s).2.1) := by
  refine ⟨?_, fun q r => rfl, ?_, ?_, ?_⟩
  · intro l
    induction l with
    | nil => rfl
    | cons p rest ih =>
      rcases p with ⟨req, env⟩
      rw [process_requests_cons, process_requests_cons]
      have h1 : (Coordinator.process_one f1 req env).2.1 =
        (Coordinator.tryBlock req env).2 := rfl
      have h2 : (Coordinator.process_one f2 req env).2.1 =
        (Coordinator.tryBlock req env).2 := rfl
      rw [h1, h2]
      cases h : (Coordinator.tryBlock req env).2 with
      | some e => rfl
      | none =>
        show (Coordinator.process_one f1 req env).1 ++
            (Coordinator.process_requests f1 rest).1 =
          (Coordinator.process_one f2 req env).1 ++
            (Coordinator.process_requests f2 rest).1
        rw [ih]
        exact congrArg (· ++ (Coordinator.process_requests f2 rest).1)
          (process_one_flag_indep f1 f2 req env).1
  · intro conns
    induction conns with
    | nil => rfl
    | cons c rest ih =>
      cases c with
      | error e => rfl
      | ok req => simp [Coordinator.start, ih]
  · intro env d
    rcases env with ⟨sendRes, recvRaw⟩
    rcases sendRes with e | u
    · cases e <;> simp [Worker.query_coordinator]
    · rcases recvRaw with e | raw
      · cases e <;> simp [Worker.query_coordinator]
      · simp [Worker.query_coordinator]
  · intro host port env s
    rcases env with ⟨cr, rr⟩
    rcases cr with e | u
    · cases e <;> simp [Worker.start]
    · rcases rr with e | u2
      · cases e <;> simp [Worker.start]
      · simp [Worker.start]

end QueueSync
